import Mathlib

/-!
# Smart GPIO Event & Control platform driver

A sequential model of `src/kernel/gpio_event.c`.

* The driver's single static `struct gpio_event_dev gdev` is the record
  `gpio_event_dev`; the kernel objects it embeds (`cdev`, `waitq`, `lock`) live
  on the collaborator side, in `Kernel`.
* The GPIO, interrupt and character-device subsystems are collaborators.  Their
  return codes are inputs (`ProbeEnv`); their observable state is `Kernel`:
  the set of resources currently held, the ordered trace of ownership-changing
  calls that took effect, the level of every GPIO line and two counters for the
  wait queue.
* The spinlock only delimits the critical sections; each driver entry point is
  modelled as one atomic step.
* User memory reached through a `__user` pointer is the list of bytes that are
  accessible at that address; the empty list is a faulting pointer.
-/

namespace GpioEvent

/-! ## Constants of the kernel headers -/

/-- Errno `EINVAL` (Linux `errno-base.h`). -/
def EINVAL : Int := 22

/-- Errno `EFAULT` (Linux `errno-base.h`). -/
def EFAULT : Int := 14

/-- Poll bit `POLLIN` (Linux `asm-generic/poll.h`). -/
def POLLIN : Nat := 0x0001

/-- Poll bit `POLLOUT` (Linux `asm-generic/poll.h`). -/
def POLLOUT : Nat := 0x0004

/-- Poll bit `POLLRDNORM` (Linux `asm-generic/poll.h`). -/
def POLLRDNORM : Nat := 0x0040

/-- Poll bit `POLLWRNORM` (Linux `asm-generic/poll.h`). -/
def POLLWRNORM : Nat := 0x0100

/-- Value of `IRQ_HANDLED` in `enum irqreturn`. -/
def IRQ_HANDLED : Int := 1

/-- The byte of the character constant `'0'`. -/
def CH_0 : Nat := 48

/-- The byte of the character constant `'1'`. -/
def CH_1 : Nat := 49

/-- Conversion of a `size_t` to the `ssize_t` a file operation returns
(64-bit two's complement, the ARM64 target of the driver). -/
def to_ssize (len : Nat) : Int :=
  if len % 2 ^ 64 < 2 ^ 63 then ((len % 2 ^ 64 : Nat) : Int)
  else ((len % 2 ^ 64 : Nat) : Int) - 2 ^ 64

/-! ## Data model -/

/-- The data fields of `struct gpio_event_dev`. -/
structure gpio_event_dev where
  gpio_out : Int
  gpio_in : Int
  irq : Int
  event_pending : Int
  devt : Nat
  deriving DecidableEq, Repr

/-- The two GPIO lines of the device, named after the field of `gdev` that
holds their number. -/
inductive GpioLine where
  | gpio_out
  | gpio_in
  deriving DecidableEq, Repr

/-- The five resources the driver owns while attached. -/
inductive Resource where
  | output_pin
  | input_pin
  | interrupt
  | chrdev_region
  | cdev
  deriving DecidableEq, Repr

/-- The collaborator calls that acquire or release a resource. -/
inductive Call where
  | gpio_request (l : GpioLine)
  | request_irq
  | alloc_chrdev_region
  | cdev_add
  | cdev_del
  | unregister_chrdev_region
  | free_irq
  | gpio_free (l : GpioLine)
  deriving DecidableEq, Repr

/-- The pin resource behind a GPIO line. -/
def GpioLine.resource : GpioLine → Resource
  | .gpio_out => .output_pin
  | .gpio_in => .input_pin

/-- The call that acquires a resource. -/
def Resource.acquire_call : Resource → Call
  | .output_pin => .gpio_request .gpio_out
  | .input_pin => .gpio_request .gpio_in
  | .interrupt => .request_irq
  | .chrdev_region => .alloc_chrdev_region
  | .cdev => .cdev_add

/-- The call that releases a resource. -/
def Resource.release_call : Resource → Call
  | .output_pin => .gpio_free .gpio_out
  | .input_pin => .gpio_free .gpio_in
  | .interrupt => .free_irq
  | .chrdev_region => .unregister_chrdev_region
  | .cdev => .cdev_del

/-- Observable state of the collaborating kernel subsystems. -/
structure Kernel where
  /-- the resources currently held by the driver -/
  held : List Resource
  /-- the acquire and release calls that took effect, oldest first -/
  trace : List Call
  /-- the level of each GPIO line, by line number -/
  level : Int → Bool
  /-- the number of `wake_up_interruptible` calls on `gdev.waitq` -/
  wakeups : Nat
  /-- the number of `poll_wait` registrations on `gdev.waitq` -/
  poll_waits : Nat

/-- A kernel in which the driver holds nothing and has done nothing. -/
def Kernel.fresh : Kernel :=
  { held := [], trace := [], level := fun _ => false, wakeups := 0, poll_waits := 0 }

/-- An acquiring call with return code `ret`: it takes effect when `ret = 0`. -/
def Kernel.acquire (k : Kernel) (r : Resource) (ret : Int) : Kernel :=
  if ret = 0 then { k with held := r :: k.held, trace := k.trace ++ [r.acquire_call] } else k

/-- A releasing call (all of them return `void`). -/
def Kernel.release (k : Kernel) (r : Resource) : Kernel :=
  { k with held := k.held.erase r, trace := k.trace ++ [r.release_call] }

/-- Collaborator `gpio_request(gdev.<l>, ..)`. -/
def Kernel.gpio_request (k : Kernel) (l : GpioLine) (ret : Int) : Kernel :=
  k.acquire l.resource ret

/-- Collaborator `gpio_free(gdev.<l>)`. -/
def Kernel.gpio_free (k : Kernel) (l : GpioLine) : Kernel :=
  k.release l.resource

/-- Collaborator `request_irq(gdev.irq, ..)`. -/
def Kernel.request_irq (k : Kernel) (ret : Int) : Kernel :=
  k.acquire .interrupt ret

/-- Collaborator `free_irq(gdev.irq, NULL)`. -/
def Kernel.free_irq (k : Kernel) : Kernel :=
  k.release .interrupt

/-- Collaborator `alloc_chrdev_region(&gdev.devt, 0, 1, DRV_NAME)`. -/
def Kernel.alloc_chrdev_region (k : Kernel) (ret : Int) : Kernel :=
  k.acquire .chrdev_region ret

/-- Collaborator `unregister_chrdev_region(gdev.devt, 1)`. -/
def Kernel.unregister_chrdev_region (k : Kernel) : Kernel :=
  k.release .chrdev_region

/-- Collaborator `cdev_add(&gdev.cdev, gdev.devt, 1)`. -/
def Kernel.cdev_add (k : Kernel) (ret : Int) : Kernel :=
  k.acquire .cdev ret

/-- Collaborator `cdev_del(&gdev.cdev)`. -/
def Kernel.cdev_del (k : Kernel) : Kernel :=
  k.release .cdev

/-- Collaborator `gpio_set_value(pin, value)`. -/
def Kernel.gpio_set_value (k : Kernel) (pin : Int) (value : Bool) : Kernel :=
  { k with level := fun p => if p = pin then value else k.level p }

/-- Collaborator `gpio_direction_output(pin, value)`: on success the line is
driven to `value`. -/
def Kernel.gpio_direction_output (k : Kernel) (pin : Int) (value : Bool) (ret : Int) : Kernel :=
  if ret = 0 then k.gpio_set_value pin value else k

/-- Collaborator `wake_up_interruptible(&gdev.waitq)`. -/
def Kernel.wake_up_interruptible (k : Kernel) : Kernel :=
  { k with wakeups := k.wakeups + 1 }

/-- Collaborator `poll_wait(file, &gdev.waitq, wait)`. -/
def Kernel.poll_wait (k : Kernel) : Kernel :=
  { k with poll_waits := k.poll_waits + 1 }

/-- The driver's global state together with the collaborators' state. -/
structure Sys where
  gdev : gpio_event_dev
  kern : Kernel

/-! ## Interrupt handler and file operations -/

/-- Source `gpio_event_irq_handler`: set the pending flag, wake the waiters. -/
def gpio_event_irq_handler (s : Sys) : Int × Sys :=
  let g := { s.gdev with event_pending := 1 }
  let k := s.kern.wake_up_interruptible
  (IRQ_HANDLED, { gdev := g, kern := k })

/-- Source `gpio_event_write`.  `buf` is the user memory at the pointer, `len`
the byte count of the call. -/
def gpio_event_write (s : Sys) (buf : List Nat) (len : Nat) : Int × Sys :=
  if len < 1 then (-EINVAL, s)
  else
    match buf with
    | [] => (-EFAULT, s)
    | val :: _ =>
      (to_ssize len, { s with kern := s.kern.gpio_set_value s.gdev.gpio_out (val == CH_1) })

/-- Outcome of `gpio_event_read`: return value, new state, user memory and
stream position after the call. -/
structure ReadResult where
  ret : Int
  sys : Sys
  buf : List Nat
  ppos : Int

/-- Source `gpio_event_read`.  The flag is drained before the byte is copied
out; `len` is not consulted. -/
def gpio_event_read (s : Sys) (buf : List Nat) (_len : Nat) (ppos : Int) : ReadResult :=
  if ppos > 0 then { ret := 0, sys := s, buf := buf, ppos := ppos }
  else
    let val := if s.gdev.event_pending ≠ 0 then CH_1 else CH_0
    let s1 : Sys := { s with gdev := { s.gdev with event_pending := 0 } }
    match buf with
    | [] => { ret := -EFAULT, sys := s1, buf := buf, ppos := ppos }
    | _ :: rest => { ret := 1, sys := s1, buf := val :: rest, ppos := 1 }

/-- Source `gpio_event_poll`. -/
def gpio_event_poll (s : Sys) : Nat × Sys :=
  let mask : Nat := 0
  let k := s.kern.poll_wait
  let mask := if s.gdev.event_pending ≠ 0 then mask ||| (POLLIN ||| POLLRDNORM) else mask
  (mask, { s with kern := k })

/-! ## Attach and detach -/

/-- Collaborator outcomes seen by one run of `gpio_event_probe`. -/
structure ProbeEnv where
  /-- result of `of_get_named_gpio(.., "out-gpios", 0)` -/
  of_out_gpios : Int
  /-- result of `of_get_named_gpio(.., "in-gpios", 0)` -/
  of_in_gpios : Int
  /-- the predicate `gpio_is_valid` -/
  gpio_is_valid : Int → Bool
  /-- return code of `gpio_request(gdev.gpio_out, ..)` -/
  gpio_request_out : Int
  /-- return code of `gpio_direction_output(gdev.gpio_out, 0)` -/
  gpio_direction_output : Int
  /-- return code of `gpio_request(gdev.gpio_in, ..)` -/
  gpio_request_in : Int
  /-- return code of `gpio_direction_input(gdev.gpio_in)` -/
  gpio_direction_input : Int
  /-- result of `gpio_to_irq(gdev.gpio_in)` -/
  gpio_to_irq : Int
  /-- return code of `request_irq` -/
  request_irq : Int
  /-- return code of `alloc_chrdev_region` -/
  alloc_chrdev_region : Int
  /-- device number stored by a successful `alloc_chrdev_region` -/
  devt : Nat
  /-- return code of `cdev_add` -/
  cdev_add : Int

/-- Label `err_out` of `gpio_event_probe`. -/
def err_out (ret : Int) (g : gpio_event_dev) (k : Kernel) : Int × Sys :=
  (ret, { gdev := g, kern := k.gpio_free .gpio_out })

/-- Label `err_in` of `gpio_event_probe`; falls through to `err_out`. -/
def err_in (ret : Int) (g : gpio_event_dev) (k : Kernel) : Int × Sys :=
  err_out ret g (k.gpio_free .gpio_in)

/-- Label `err_irq` of `gpio_event_probe`; falls through to `err_in`. -/
def err_irq (ret : Int) (g : gpio_event_dev) (k : Kernel) : Int × Sys :=
  err_in ret g k.free_irq

/-- Label `err_chrdev` of `gpio_event_probe`; falls through to `err_irq`. -/
def err_chrdev (ret : Int) (g : gpio_event_dev) (k : Kernel) : Int × Sys :=
  err_irq ret g k.unregister_chrdev_region

/-- Source `gpio_event_probe`. -/
def gpio_event_probe (env : ProbeEnv) (s : Sys) : Int × Sys :=
  let g := { s.gdev with gpio_out := env.of_out_gpios, gpio_in := env.of_in_gpios }
  let k := s.kern
  if (!env.gpio_is_valid g.gpio_out || !env.gpio_is_valid g.gpio_in) then
    (-EINVAL, { gdev := g, kern := k })
  else
    let g := { g with event_pending := 0 }
    let ret := env.gpio_request_out
    let k := k.gpio_request .gpio_out ret
    if ret ≠ 0 then (ret, { gdev := g, kern := k })
    else
      let ret := env.gpio_direction_output
      let k := k.gpio_direction_output g.gpio_out false ret
      if ret ≠ 0 then err_out ret g k
      else
        let ret := env.gpio_request_in
        let k := k.gpio_request .gpio_in ret
        if ret ≠ 0 then err_out ret g k
        else
          let ret := env.gpio_direction_input
          if ret ≠ 0 then err_in ret g k
          else
            let g := { g with irq := env.gpio_to_irq }
            if g.irq < 0 then err_in g.irq g k
            else
              let ret := env.request_irq
              let k := k.request_irq ret
              if ret ≠ 0 then err_in ret g k
              else
                let ret := env.alloc_chrdev_region
                let k := k.alloc_chrdev_region ret
                let g := if ret = 0 then { g with devt := env.devt } else g
                if ret ≠ 0 then err_irq ret g k
                else
                  let ret := env.cdev_add
                  let k := k.cdev_add ret
                  if ret ≠ 0 then err_chrdev ret g k
                  else (0, { gdev := g, kern := k })

/-- Source `gpio_event_remove`. -/
def gpio_event_remove (s : Sys) : Int × Sys :=
  let k := s.kern.cdev_del
  let k := k.unregister_chrdev_region
  let k := k.free_irq
  let k := k.gpio_free .gpio_in
  let k := k.gpio_free .gpio_out
  (0, { s with kern := k })

/-! ## Event sequences -/

/-- The state after `n` consecutive invocations of the interrupt handler. -/
def irq_n : Nat → Sys → Sys
  | 0, s => s
  | n + 1, s => irq_n n (gpio_event_irq_handler s).2

/-- One event of the attached device, as the outside world issues it. -/
inductive Op where
  | irq
  | write (buf : List Nat) (len : Nat)
  | poll
  | read (buf : List Nat) (len : Nat) (ppos : Int)

/-- Whether an event is an edge interrupt. -/
def Op.is_irq : Op → Bool
  | .irq => true
  | _ => false

/-- Run one event: the value handed back to the caller and the next state. -/
def Op.step (s : Sys) : Op → Int × Sys
  | .irq => gpio_event_irq_handler s
  | .write buf len => gpio_event_write s buf len
  | .poll => (((gpio_event_poll s).1 : Int), (gpio_event_poll s).2)
  | .read buf len ppos => ((gpio_event_read s buf len ppos).ret, (gpio_event_read s buf len ppos).sys)

/-- Run a sequence of events, oldest first. -/
def run (s : Sys) : List Op → Sys
  | [] => s
  | op :: ops => run (op.step s).2 ops

/-- History flag "at least one edge interrupt since the last draining event":
`drains op ret` says whether event `op`, having returned `ret`, counts as a
drain; `flag` is the value of the flag before the sequence. -/
def edge_since (drains : Op → Int → Bool) (s : Sys) (flag : Bool) : List Op → Bool
  | [] => flag
  | op :: ops =>
    edge_since drains (op.step s).2
      (if op.is_irq then true else if drains op (op.step s).1 then false else flag) ops

/-- A read that returned 1. -/
def read_returned_one : Op → Int → Bool
  | .read _ _ _, ret => decide (ret = 1)
  | _, _ => false

/-- A read that got past the position check: it returned 1 or `-EFAULT`. -/
def read_reached_drain : Op → Int → Bool
  | .read _ _ _, ret => decide (ret = 1) || decide (ret = -EFAULT)
  | _, _ => false

/-! ## Attach steps and action order -/

/-- The nine points at which `gpio_event_probe` can fail, in program order. -/
inductive ProbeStep where
  | pin_validation
  | request_out
  | direction_out
  | request_in
  | direction_in
  | irq_resolution
  | irq_registration
  | chrdev_alloc
  | cdev_registration
  deriving DecidableEq, Repr

/-- Position of a step in program order. -/
def ProbeStep.index : ProbeStep → Nat
  | .pin_validation => 0
  | .request_out => 1
  | .direction_out => 2
  | .request_in => 3
  | .direction_in => 4
  | .irq_resolution => 5
  | .irq_registration => 6
  | .chrdev_alloc => 7
  | .cdev_registration => 8

/-- Whether the collaborator outcome of a step is a failure. -/
def ProbeStep.fails (env : ProbeEnv) : ProbeStep → Bool
  | .pin_validation =>
    !env.gpio_is_valid env.of_out_gpios || !env.gpio_is_valid env.of_in_gpios
  | .request_out => decide (env.gpio_request_out ≠ 0)
  | .direction_out => decide (env.gpio_direction_output ≠ 0)
  | .request_in => decide (env.gpio_request_in ≠ 0)
  | .direction_in => decide (env.gpio_direction_input ≠ 0)
  | .irq_resolution => decide (env.gpio_to_irq < 0)
  | .irq_registration => decide (env.request_irq ≠ 0)
  | .chrdev_alloc => decide (env.alloc_chrdev_region ≠ 0)
  | .cdev_registration => decide (env.cdev_add ≠ 0)

/-- The resources acquired, in order, once every step before the given one
has succeeded. -/
def ProbeStep.acquired_before : ProbeStep → List Resource
  | .pin_validation => []
  | .request_out => []
  | .direction_out => [.output_pin]
  | .request_in => [.output_pin]
  | .direction_in => [.output_pin, .input_pin]
  | .irq_resolution => [.output_pin, .input_pin]
  | .irq_registration => [.output_pin, .input_pin]
  | .chrdev_alloc => [.output_pin, .input_pin, .interrupt]
  | .cdev_registration => [.output_pin, .input_pin, .interrupt, .chrdev_region]

/-- The five resources in the order a fully successful attach acquires them. -/
def acquisition_order : List Resource :=
  [.output_pin, .input_pin, .interrupt, .chrdev_region, .cdev]

/-- The acquire and release calls that took effect between two kernel states. -/
def actions_since (before after : Kernel) : List Call :=
  after.trace.drop before.trace.length

/-- The release actions performed by `gpio_event_remove` from state `s`. -/
def remove_actions (s : Sys) : List Call :=
  actions_since s.kern (gpio_event_remove s).2.kern

/-- Action `a` is performed before action `b` in the sequence `l`. -/
def happens_before (a b : Call) (l : List Call) : Prop :=
  a ∈ l ∧ b ∈ l ∧ l.indexOf a < l.indexOf b

instance (a b : Call) (l : List Call) : Decidable (happens_before a b l) := by
  unfold happens_before
  infer_instance

/-! ## Concrete inputs -/

/-- Collaborator outcomes of an attach in which every step succeeds: lines 17
and 27, interrupt 54. -/
def env_ok : ProbeEnv :=
  { of_out_gpios := 17, of_in_gpios := 27, gpio_is_valid := fun n => decide (0 ≤ n),
    gpio_request_out := 0, gpio_direction_output := 0, gpio_request_in := 0,
    gpio_direction_input := 0, gpio_to_irq := 54, request_irq := 0,
    alloc_chrdev_region := 0, devt := 240, cdev_add := 0 }

/-- The same outcomes, except that `cdev_add` fails with `-ENOMEM`. -/
def env_cdev_add_fails : ProbeEnv :=
  { env_ok with cdev_add := -12 }

/-- The state before attach: zeroed static data, nothing held. -/
def sys_boot : Sys :=
  { gdev := { gpio_out := 0, gpio_in := 0, irq := 0, event_pending := 0, devt := 0 },
    kern := Kernel.fresh }

/-- The attached state reached from `sys_boot` by the successful attach `env_ok`. -/
def sys_attached : Sys :=
  (gpio_event_probe env_ok sys_boot).2

/-! ## Interrupt handler and file operations: lemmas -/

theorem irq_n_succ (n : Nat) (s : Sys) :
    irq_n (n + 1) s = (gpio_event_irq_handler (irq_n n s)).2 := by
  induction n generalizing s with
  | zero => rfl
  | succ n ih =>
    show irq_n (n + 1) (gpio_event_irq_handler s).2 = _
    rw [ih]
    rfl

theorem irq_n_pending (n : Nat) (s : Sys) (h : 1 ≤ n) :
    (irq_n n s).gdev.event_pending = 1 := by
  obtain ⟨m, rfl⟩ : ∃ m, n = m + 1 := ⟨n - 1, by omega⟩
  rw [irq_n_succ]
  rfl

theorem read_at_start_cons (s : Sys) (b : Nat) (rest : List Nat) (len : Nat) :
    gpio_event_read s (b :: rest) len 0 =
      { ret := 1,
        sys := { s with gdev := { s.gdev with event_pending := 0 } },
        buf := (if s.gdev.event_pending ≠ 0 then CH_1 else CH_0) :: rest,
        ppos := 1 } := by
  simp [gpio_event_read]

theorem probe_all_ok (env : ProbeEnv) (s : Sys)
    (h0 : (!env.gpio_is_valid env.of_out_gpios || !env.gpio_is_valid env.of_in_gpios) = false)
    (h1 : env.gpio_request_out = 0) (h2 : env.gpio_direction_output = 0)
    (h3 : env.gpio_request_in = 0) (h4 : env.gpio_direction_input = 0)
    (h5 : ¬ env.gpio_to_irq < 0) (h6 : env.request_irq = 0)
    (h7 : env.alloc_chrdev_region = 0) (h8 : env.cdev_add = 0) :
    gpio_event_probe env s =
      (0, { gdev := { gpio_out := env.of_out_gpios, gpio_in := env.of_in_gpios,
                      irq := env.gpio_to_irq, event_pending := 0, devt := env.devt },
            kern := { held := [.cdev, .chrdev_region, .interrupt, .input_pin, .output_pin]
                        ++ s.kern.held,
                      trace := s.kern.trace ++ [.gpio_request .gpio_out, .gpio_request .gpio_in,
                        .request_irq, .alloc_chrdev_region, .cdev_add],
                      level := fun p => if p = env.of_out_gpios then false else s.kern.level p,
                      wakeups := s.kern.wakeups, poll_waits := s.kern.poll_waits } }) := by
  simp [gpio_event_probe, h0, h1, h2, h3, h4, h5, h6, h7, h8, Kernel.gpio_request,
    Kernel.gpio_direction_output, Kernel.request_irq, Kernel.alloc_chrdev_region,
    Kernel.cdev_add, Kernel.acquire, Kernel.gpio_set_value, GpioLine.resource,
    Resource.acquire_call]

theorem probe_ok_of_ret_zero (env : ProbeEnv) (s : Sys)
    (h : (gpio_event_probe env s).1 = 0) :
    (!env.gpio_is_valid env.of_out_gpios || !env.gpio_is_valid env.of_in_gpios) = false ∧
    env.gpio_request_out = 0 ∧ env.gpio_direction_output = 0 ∧
    env.gpio_request_in = 0 ∧ env.gpio_direction_input = 0 ∧
    ¬ env.gpio_to_irq < 0 ∧ env.request_irq = 0 ∧
    env.alloc_chrdev_region = 0 ∧ env.cdev_add = 0 := by
  by_cases h0 : (!env.gpio_is_valid env.of_out_gpios || !env.gpio_is_valid env.of_in_gpios) = true
  · simp [gpio_event_probe, h0, EINVAL] at h
  by_cases h1 : env.gpio_request_out = 0
  swap
  · simp [gpio_event_probe, h0, h1] at h
  by_cases h2 : env.gpio_direction_output = 0
  swap
  · simp [gpio_event_probe, h0, h1, h2, err_out] at h
  by_cases h3 : env.gpio_request_in = 0
  swap
  · simp [gpio_event_probe, h0, h1, h2, h3, err_out] at h
  by_cases h4 : env.gpio_direction_input = 0
  swap
  · simp [gpio_event_probe, h0, h1, h2, h3, h4, err_out, err_in] at h
  by_cases h5 : env.gpio_to_irq < 0
  · simp [gpio_event_probe, h0, h1, h2, h3, h4, h5, err_out, err_in] at h
    omega
  by_cases h6 : env.request_irq = 0
  swap
  · simp [gpio_event_probe, h0, h1, h2, h3, h4, h5, h6, err_out, err_in] at h
  by_cases h7 : env.alloc_chrdev_region = 0
  swap
  · simp [gpio_event_probe, h0, h1, h2, h3, h4, h5, h6, h7, err_out, err_in, err_irq] at h
  by_cases h8 : env.cdev_add = 0
  swap
  · simp [gpio_event_probe, h0, h1, h2, h3, h4, h5, h6, h7, h8, err_out, err_in, err_irq,
      err_chrdev] at h
  simp only [Bool.not_eq_true] at h0
  exact ⟨h0, h1, h2, h3, h4, h5, h6, h7, h8⟩

theorem probe_success_state (env : ProbeEnv) (s : Sys)
    (h : (gpio_event_probe env s).1 = 0) :
    gpio_event_probe env s =
      (0, { gdev := { gpio_out := env.of_out_gpios, gpio_in := env.of_in_gpios,
                      irq := env.gpio_to_irq, event_pending := 0, devt := env.devt },
            kern := { held := [.cdev, .chrdev_region, .interrupt, .input_pin, .output_pin]
                        ++ s.kern.held,
                      trace := s.kern.trace ++ [.gpio_request .gpio_out, .gpio_request .gpio_in,
                        .request_irq, .alloc_chrdev_region, .cdev_add],
                      level := fun p => if p = env.of_out_gpios then false else s.kern.level p,
                      wakeups := s.kern.wakeups, poll_waits := s.kern.poll_waits } }) := by
  obtain ⟨h0, h1, h2, h3, h4, h5, h6, h7, h8⟩ := probe_ok_of_ret_zero env s h
  exact probe_all_ok env s h0 h1 h2 h3 h4 h5 h6 h7 h8

theorem remove_trace (s : Sys) :
    (gpio_event_remove s).2.kern.trace =
      s.kern.trace ++ [.cdev_del, .unregister_chrdev_region, .free_irq,
        .gpio_free .gpio_in, .gpio_free .gpio_out] := by
  simp [gpio_event_remove, Kernel.cdev_del, Kernel.unregister_chrdev_region, Kernel.free_irq,
    Kernel.gpio_free, Kernel.release, GpioLine.resource, Resource.release_call]

theorem remove_actions_eq (s : Sys) :
    remove_actions s =
      [.cdev_del, .unregister_chrdev_region, .free_irq,
        .gpio_free .gpio_in, .gpio_free .gpio_out] := by
  simp [remove_actions, actions_since, remove_trace]

theorem step_pending_iff (s : Sys) (flag : Bool) (op : Op)
    (h : s.gdev.event_pending ≠ 0 ↔ flag = true) :
    (op.step s).2.gdev.event_pending ≠ 0 ↔
      (if op.is_irq then true
        else if read_reached_drain op (op.step s).1 then false else flag) = true := by
  cases op with
  | irq => simp [Op.step, Op.is_irq, gpio_event_irq_handler]
  | write buf len =>
    have hs : (gpio_event_write s buf len).2.gdev = s.gdev := by
      unfold gpio_event_write
      split_ifs
      · rfl
      · cases buf <;> rfl
    simp [Op.step, Op.is_irq, read_reached_drain, hs, h]
  | poll => simp [Op.step, Op.is_irq, read_reached_drain, gpio_event_poll, h]
  | read buf len ppos =>
    by_cases hp : ppos > 0
    · simp [Op.step, Op.is_irq, read_reached_drain, gpio_event_read, hp, h, EFAULT]
    · cases buf with
      | nil => simp [Op.step, Op.is_irq, read_reached_drain, gpio_event_read, hp]
      | cons b rest => simp [Op.step, Op.is_irq, read_reached_drain, gpio_event_read, hp]

theorem run_pending_iff (ops : List Op) :
    ∀ (s : Sys) (flag : Bool), (s.gdev.event_pending ≠ 0 ↔ flag = true) →
      ((run s ops).gdev.event_pending ≠ 0 ↔
        edge_since read_reached_drain s flag ops = true) := by
  induction ops with
  | nil => intro s flag h; simpa [run, edge_since] using h
  | cons op ops ih =>
    intro s flag h
    simp only [run, edge_since]
    exact ih _ _ (step_pending_iff s flag op h)

/-! ## Claims about the interrupt handler and the file operations -/

/-- C1 (coalescing): after `N ≥ 1` invocations of the interrupt handler from any
state, a read at position 0 into a writable buffer returns 1 and stores the
byte `'1'` in the first cell, leaving the rest of the buffer alone; a second
read at position 0 into a writable buffer, with no interrupt in between,
returns 1 and stores the byte `'0'`. -/
theorem C1_coalescing (N : Nat) (hN : 1 ≤ N) (s : Sys)
    (b1 : Nat) (rest1 : List Nat) (len1 : Nat)
    (b2 : Nat) (rest2 : List Nat) (len2 : Nat) :
    (gpio_event_read (irq_n N s) (b1 :: rest1) len1 0).ret = 1 ∧
    (gpio_event_read (irq_n N s) (b1 :: rest1) len1 0).buf = CH_1 :: rest1 ∧
    (gpio_event_read (gpio_event_read (irq_n N s) (b1 :: rest1) len1 0).sys
      (b2 :: rest2) len2 0).ret = 1 ∧
    (gpio_event_read (gpio_event_read (irq_n N s) (b1 :: rest1) len1 0).sys
      (b2 :: rest2) len2 0).buf = CH_0 :: rest2 := by
  have hp := irq_n_pending N s hN
  simp [read_at_start_cons, hp]

/-- Instance of C1: three interrupts on the attached device, then two reads. -/
theorem C1_coalescing_witness :
    (gpio_event_read (irq_n 3 sys_attached) [0] 1 0).ret = 1 ∧
    (gpio_event_read (irq_n 3 sys_attached) [0] 1 0).buf = CH_1 :: [] ∧
    (gpio_event_read (gpio_event_read (irq_n 3 sys_attached) [0] 1 0).sys [0] 1 0).ret = 1 ∧
    (gpio_event_read (gpio_event_read (irq_n 3 sys_attached) [0] 1 0).sys [0] 1 0).buf
      = CH_0 :: [] :=
  C1_coalescing 3 (by decide) sys_attached 0 [] 1 0 [] 1

/-- C6 (output fidelity): a write of length 0 fails with `-EINVAL` and leaves the
whole state, the output level included, unchanged; a write of length at least 1
from a readable buffer leaves the output line high exactly when the first byte
is `'1'` and low for every other first byte, whatever the remaining bytes. -/
theorem C6_output_fidelity (s : Sys) (val : Nat) (rest : List Nat) (len : Nat) :
    (len = 0 →
      (gpio_event_write s (val :: rest) len).1 = -EINVAL ∧
      (gpio_event_write s (val :: rest) len).2 = s) ∧
    (1 ≤ len →
      ((gpio_event_write s (val :: rest) len).2.kern.level s.gdev.gpio_out = true ↔ val = CH_1) ∧
      ((gpio_event_write s (val :: rest) len).2.kern.level s.gdev.gpio_out = false
        ↔ val ≠ CH_1)) := by
  constructor
  · intro h
    simp [gpio_event_write, h]
  · intro h
    have h1 : ¬ len < 1 := by omega
    simp [gpio_event_write, h1, Kernel.gpio_set_value]

/-- Instance of C6: an empty write, a write of `1` and newline, a write of `0` and newline. -/
theorem C6_output_fidelity_witness :
    (gpio_event_write sys_attached [CH_1] 0).1 = -EINVAL ∧
    (gpio_event_write sys_attached [CH_1, 10] 2).2.kern.level 17 = true ∧
    (gpio_event_write sys_attached [CH_0, 10] 2).2.kern.level 17 = false :=
  ⟨((C6_output_fidelity sys_attached CH_1 [] 0).1 rfl).1,
   ((C6_output_fidelity sys_attached CH_1 [10] 2).2 (by decide)).1.2 rfl,
   ((C6_output_fidelity sys_attached CH_0 [10] 2).2 (by decide)).2.2 (by decide)⟩

/-- C7, as claimed, fails: a write of two bytes from a readable buffer returns 2,
not 1. -/
theorem C7_counterexample :
    (gpio_event_write sys_attached [CH_1, 10] 2).1 = 2 ∧
    (gpio_event_write sys_attached [CH_1, 10] 2).1 ≠ 1 := by
  decide

/-- C7 (amended): a write with `1 ≤ len < 2^63` from a readable buffer returns
`len`, the byte count of the call; the return value is 1 exactly when
`len = 1`. -/
theorem C7_write_returns_len (s : Sys) (val : Nat) (rest : List Nat) (len : Nat)
    (h1 : 1 ≤ len) (h2 : len < 2 ^ 63) :
    (gpio_event_write s (val :: rest) len).1 = (len : Int) ∧
    ((gpio_event_write s (val :: rest) len).1 = 1 ↔ len = 1) := by
  have hlt : ¬ len < 1 := by omega
  have hret : (gpio_event_write s (val :: rest) len).1 = (len : Int) := by
    simp only [gpio_event_write, hlt, if_false, to_ssize]
    split_ifs <;> omega
  refine ⟨hret, ?_⟩
  rw [hret]
  omega

/-- Instance of the amended C7: a two-byte write returns 2. -/
theorem C7_write_returns_len_witness :
    (gpio_event_write sys_attached [CH_1, 10] 2).1 = ((2 : Nat) : Int) ∧
    ((gpio_event_write sys_attached [CH_1, 10] 2).1 = 1 ↔ 2 = 1) :=
  C7_write_returns_len sys_attached CH_1 [10] 2 (by decide) (by decide)

/-- C8, as claimed, fails: with an edge pending the mask is `POLLIN | POLLRDNORM`
and with none pending it is 0; neither contains `POLLOUT` or `POLLWRNORM`. -/
theorem C8_counterexample :
    (gpio_event_poll (irq_n 1 sys_attached)).1 &&& POLLOUT = 0 ∧
    (gpio_event_poll (irq_n 1 sys_attached)).1 &&& POLLWRNORM = 0 ∧
    (gpio_event_poll sys_attached).1 &&& POLLOUT = 0 ∧
    (gpio_event_poll sys_attached).1 &&& POLLWRNORM = 0 := by
  decide

/-- C8 (amended): for every device state the mask returned by `gpio_event_poll`
is `POLLIN | POLLRDNORM` when an edge is pending and 0 otherwise, so it never
contains a writable bit (`POLLOUT`, `POLLWRNORM`). -/
theorem C8_poll_never_writable (s : Sys) :
    (gpio_event_poll s).1 =
      (if s.gdev.event_pending ≠ 0 then POLLIN ||| POLLRDNORM else 0) ∧
    (gpio_event_poll s).1 &&& POLLOUT = 0 ∧
    (gpio_event_poll s).1 &&& POLLWRNORM = 0 := by
  by_cases h : s.gdev.event_pending = 0
  · simp [gpio_event_poll, h]
  · simp only [gpio_event_poll, ne_eq, h, not_false_eq_true, if_true]
    decide

/-- C9 (poll is a non-mutating peek): the mask has both `POLLIN` and `POLLRDNORM`
set exactly when `event_pending` is non-zero; the driver data, the GPIO levels,
the held resources and the call trace are unchanged; and a read at position 0
after the poll returns the same value and delivers the same buffer as the read
alone. -/
theorem C9_poll_peek (s : Sys) :
    ((gpio_event_poll s).1 &&& (POLLIN ||| POLLRDNORM) = POLLIN ||| POLLRDNORM
      ↔ s.gdev.event_pending ≠ 0) ∧
    (gpio_event_poll s).2.gdev = s.gdev ∧
    (gpio_event_poll s).2.kern.level = s.kern.level ∧
    (gpio_event_poll s).2.kern.held = s.kern.held ∧
    (gpio_event_poll s).2.kern.trace = s.kern.trace ∧
    ∀ (buf : List Nat) (len : Nat),
      (gpio_event_read (gpio_event_poll s).2 buf len 0).ret = (gpio_event_read s buf len 0).ret ∧
      (gpio_event_read (gpio_event_poll s).2 buf len 0).buf = (gpio_event_read s buf len 0).buf ∧
      (gpio_event_read (gpio_event_poll s).2 buf len 0).sys.gdev
        = (gpio_event_read s buf len 0).sys.gdev := by
  refine ⟨?_, rfl, rfl, rfl, rfl, ?_⟩
  · by_cases h : s.gdev.event_pending = 0
    · simp only [gpio_event_poll, ne_eq, h, not_true_eq_false, if_false, iff_false]
      decide
    · simp only [gpio_event_poll, ne_eq, h, not_false_eq_true, if_true, iff_true]
      decide
  · intro buf len
    cases buf <;> simp [gpio_event_read, gpio_event_poll]

/-- C10 (read past the start): a read whose position is greater than 0 returns 0,
leaves the caller's buffer, the position and the whole state (the pending flag
included) unchanged; if an edge was pending, the next read at position 0 into a
writable buffer still returns 1 and delivers `'1'`. -/
theorem C10_read_past_start (s : Sys) (buf : List Nat) (len : Nat) (ppos : Int)
    (hp : 0 < ppos) :
    (gpio_event_read s buf len ppos).ret = 0 ∧
    (gpio_event_read s buf len ppos).buf = buf ∧
    (gpio_event_read s buf len ppos).ppos = ppos ∧
    (gpio_event_read s buf len ppos).sys = s ∧
    ∀ (b : Nat) (rest : List Nat) (len2 : Nat), s.gdev.event_pending ≠ 0 →
      (gpio_event_read (gpio_event_read s buf len ppos).sys (b :: rest) len2 0).ret = 1 ∧
      (gpio_event_read (gpio_event_read s buf len ppos).sys (b :: rest) len2 0).buf
        = CH_1 :: rest := by
  have hs : gpio_event_read s buf len ppos = { ret := 0, sys := s, buf := buf, ppos := ppos } := by
    simp [gpio_event_read, hp]
  rw [hs]
  refine ⟨rfl, rfl, rfl, rfl, ?_⟩
  intro b rest len2 hpend
  simp [read_at_start_cons, hpend]

/-- Instance of C10: a read at position 1 with an edge pending, then a read at position 0. -/
theorem C10_read_past_start_witness :
    (gpio_event_read (irq_n 1 sys_attached) [7] 1 1).ret = 0 ∧
    (gpio_event_read (irq_n 1 sys_attached) [7] 1 1).buf = [7] ∧
    (gpio_event_read (gpio_event_read (irq_n 1 sys_attached) [7] 1 1).sys [7] 1 0).buf
      = [CH_1] :=
  ⟨(C10_read_past_start (irq_n 1 sys_attached) [7] 1 1 (by decide)).1,
   (C10_read_past_start (irq_n 1 sys_attached) [7] 1 1 (by decide)).2.1,
   ((C10_read_past_start (irq_n 1 sys_attached) [7] 1 1 (by decide)).2.2.2.2 7 [] 1
      (by decide)).2⟩

/-! ## Claims about attach and detach -/

/-- C2 (rollback completeness): if `step` is the first step of `gpio_event_probe`
whose collaborator outcome is a failure, then probe returns a non-zero value,
the acquire and release calls it performed are exactly the acquisitions of the
resources obtained before `step`, in order, followed by the release of each of
them once, in reverse order, and the set of held resources is what it was
before the call, so nothing is held when nothing was held before. -/
theorem C2_rollback_complete (env : ProbeEnv) (s : Sys) (step : ProbeStep)
    (hfail : step.fails env = true)
    (hfirst : ∀ t : ProbeStep, t.index < step.index → t.fails env = false) :
    (gpio_event_probe env s).1 ≠ 0 ∧
    (gpio_event_probe env s).2.kern.trace =
      s.kern.trace ++ step.acquired_before.map Resource.acquire_call
        ++ step.acquired_before.reverse.map Resource.release_call ∧
    step.acquired_before.Nodup ∧
    (gpio_event_probe env s).2.kern.held = s.kern.held ∧
    (s.kern.held = [] → (gpio_event_probe env s).2.kern.held = []) := by
  have key : (gpio_event_probe env s).1 ≠ 0 ∧
      (gpio_event_probe env s).2.kern.trace =
        s.kern.trace ++ step.acquired_before.map Resource.acquire_call
          ++ step.acquired_before.reverse.map Resource.release_call ∧
      step.acquired_before.Nodup ∧
      (gpio_event_probe env s).2.kern.held = s.kern.held := by
    have f0 := hfirst .pin_validation
    have f1 := hfirst .request_out
    have f2 := hfirst .direction_out
    have f3 := hfirst .request_in
    have f4 := hfirst .direction_in
    have f5 := hfirst .irq_resolution
    have f6 := hfirst .irq_registration
    have f7 := hfirst .chrdev_alloc
    cases step
    case pin_validation =>
      simp only [ProbeStep.fails] at hfail
      simp [gpio_event_probe, hfail, EINVAL, ProbeStep.acquired_before]
    case request_out =>
      simp [ProbeStep.index, ProbeStep.fails] at hfail f0
      simp [gpio_event_probe, hfail, f0, ProbeStep.acquired_before, Kernel.gpio_request,
        Kernel.acquire]
    case direction_out =>
      simp [ProbeStep.index, ProbeStep.fails] at hfail f0 f1
      simp [gpio_event_probe, hfail, f0, f1, ProbeStep.acquired_before, Kernel.gpio_request,
        Kernel.acquire, Kernel.gpio_direction_output, err_out, Kernel.gpio_free, Kernel.release,
        GpioLine.resource, Resource.acquire_call, Resource.release_call]
    case request_in =>
      simp [ProbeStep.index, ProbeStep.fails] at hfail f0 f1 f2
      simp [gpio_event_probe, hfail, f0, f1, f2, ProbeStep.acquired_before, Kernel.gpio_request,
        Kernel.acquire, Kernel.gpio_direction_output, Kernel.gpio_set_value, err_out,
        Kernel.gpio_free, Kernel.release, GpioLine.resource, Resource.acquire_call,
        Resource.release_call]
    case direction_in =>
      simp [ProbeStep.index, ProbeStep.fails] at hfail f0 f1 f2 f3
      simp [gpio_event_probe, hfail, f0, f1, f2, f3, ProbeStep.acquired_before,
        Kernel.gpio_request, Kernel.acquire, Kernel.gpio_direction_output,
        Kernel.gpio_set_value, err_out, err_in, Kernel.gpio_free, Kernel.release,
        GpioLine.resource, Resource.acquire_call, Resource.release_call]
    case irq_resolution =>
      simp [ProbeStep.index, ProbeStep.fails] at hfail f0 f1 f2 f3 f4
      have hne : env.gpio_to_irq ≠ 0 := by omega
      simp [gpio_event_probe, hfail, hne, f0, f1, f2, f3, f4, ProbeStep.acquired_before,
        Kernel.gpio_request, Kernel.acquire, Kernel.gpio_direction_output,
        Kernel.gpio_set_value, err_out, err_in, Kernel.gpio_free, Kernel.release,
        GpioLine.resource, Resource.acquire_call, Resource.release_call]
    case irq_registration =>
      simp [ProbeStep.index, ProbeStep.fails] at hfail f0 f1 f2 f3 f4 f5
      have h5 : ¬ env.gpio_to_irq < 0 := by omega
      simp [gpio_event_probe, hfail, f0, f1, f2, f3, f4, h5, ProbeStep.acquired_before,
        Kernel.gpio_request, Kernel.acquire, Kernel.gpio_direction_output,
        Kernel.gpio_set_value, Kernel.request_irq, err_out, err_in, Kernel.gpio_free,
        Kernel.release, GpioLine.resource, Resource.acquire_call, Resource.release_call]
    case chrdev_alloc =>
      simp [ProbeStep.index, ProbeStep.fails] at hfail f0 f1 f2 f3 f4 f5 f6
      have h5 : ¬ env.gpio_to_irq < 0 := by omega
      simp [gpio_event_probe, hfail, f0, f1, f2, f3, f4, h5, f6, ProbeStep.acquired_before,
        Kernel.gpio_request, Kernel.acquire, Kernel.gpio_direction_output,
        Kernel.gpio_set_value, Kernel.request_irq, Kernel.alloc_chrdev_region, err_out, err_in,
        err_irq, Kernel.free_irq, Kernel.gpio_free, Kernel.release, GpioLine.resource,
        Resource.acquire_call, Resource.release_call]
    case cdev_registration =>
      simp [ProbeStep.index, ProbeStep.fails] at hfail f0 f1 f2 f3 f4 f5 f6 f7
      have h5 : ¬ env.gpio_to_irq < 0 := by omega
      simp [gpio_event_probe, hfail, f0, f1, f2, f3, f4, h5, f6, f7,
        ProbeStep.acquired_before, Kernel.gpio_request, Kernel.acquire,
        Kernel.gpio_direction_output, Kernel.gpio_set_value, Kernel.request_irq,
        Kernel.alloc_chrdev_region, Kernel.cdev_add, err_out, err_in, err_irq, err_chrdev,
        Kernel.free_irq, Kernel.unregister_chrdev_region, Kernel.gpio_free, Kernel.release,
        GpioLine.resource, Resource.acquire_call, Resource.release_call]
  obtain ⟨k1, k2, k3, k4⟩ := key
  exact ⟨k1, k2, k3, k4, fun h => by rw [k4, h]⟩

/-- Instance of C2: every step succeeds until `cdev_add` fails with `-ENOMEM`. -/
theorem C2_rollback_complete_witness :
    ProbeStep.cdev_registration.fails env_cdev_add_fails = true ∧
    (gpio_event_probe env_cdev_add_fails sys_boot).1 ≠ 0 ∧
    (gpio_event_probe env_cdev_add_fails sys_boot).2.kern.trace =
      sys_boot.kern.trace
        ++ ProbeStep.cdev_registration.acquired_before.map Resource.acquire_call
        ++ ProbeStep.cdev_registration.acquired_before.reverse.map Resource.release_call ∧
    (gpio_event_probe env_cdev_add_fails sys_boot).2.kern.held = [] :=
  have h := C2_rollback_complete env_cdev_add_fails sys_boot .cdev_registration (by decide)
    (by intro t ht; cases t <;> first | decide | exact absurd ht (by decide))
  ⟨by decide, h.1, h.2.1, h.2.2.2.2 rfl⟩

/-- C3, as claimed, fails: in the release actions of `gpio_event_remove` from the
attached state, `free_irq` does come before `gpio_free(gdev.gpio_in)`, but it
does not come before `unregister_chrdev_region`. -/
theorem C3_counterexample :
    ¬ (happens_before .free_irq (.gpio_free .gpio_in) (remove_actions sys_attached) ∧
       happens_before .free_irq .unregister_chrdev_region (remove_actions sys_attached)) := by
  decide

/-- C3 (amended): in the release actions of `gpio_event_remove`, from any state,
the interrupt is unregistered (`free_irq`) before the input pin is released
(`gpio_free(gdev.gpio_in)`) and after the channel identity is retracted
(`unregister_chrdev_region`). -/
theorem C3_detach_irq_order (s : Sys) :
    happens_before .free_irq (.gpio_free .gpio_in) (remove_actions s) ∧
    happens_before .unregister_chrdev_region .free_irq (remove_actions s) := by
  rw [remove_actions_eq]
  decide

/-- C4 (detach mirror order): from any state `gpio_event_remove` returns 0 and
performs exactly the five release actions `cdev_del`,
`unregister_chrdev_region`, `free_irq`, `gpio_free(gdev.gpio_in)`,
`gpio_free(gdev.gpio_out)`, in this order; a `gpio_event_probe` that returns 0
performs exactly the five acquisitions of `acquisition_order`, in order; and
the release sequence is the reverse of that acquisition order. -/
theorem C4_detach_mirror (env : ProbeEnv) (s0 : Sys)
    (hok : (gpio_event_probe env s0).1 = 0) :
    (∀ s : Sys,
      (gpio_event_remove s).1 = 0 ∧
      (gpio_event_remove s).2.kern.trace =
        s.kern.trace ++ [.cdev_del, .unregister_chrdev_region, .free_irq,
          .gpio_free .gpio_in, .gpio_free .gpio_out]) ∧
    actions_since s0.kern (gpio_event_probe env s0).2.kern
      = acquisition_order.map Resource.acquire_call ∧
    remove_actions (gpio_event_probe env s0).2
      = acquisition_order.reverse.map Resource.release_call ∧
    acquisition_order.reverse.map Resource.release_call
      = [.cdev_del, .unregister_chrdev_region, .free_irq,
          .gpio_free .gpio_in, .gpio_free .gpio_out] := by
  refine ⟨fun s => ⟨rfl, remove_trace s⟩, ?_, ?_, by decide⟩
  · rw [probe_success_state env s0 hok]
    simp [actions_since, acquisition_order, Resource.acquire_call]
  · rw [remove_actions_eq]
    decide

/-- Instance of C4: the fully successful attach `env_ok` followed by detach. -/
theorem C4_detach_mirror_witness :
    (gpio_event_probe env_ok sys_boot).1 = 0 ∧
    actions_since sys_boot.kern (gpio_event_probe env_ok sys_boot).2.kern
      = acquisition_order.map Resource.acquire_call ∧
    remove_actions (gpio_event_probe env_ok sys_boot).2
      = acquisition_order.reverse.map Resource.release_call :=
  have h := C4_detach_mirror env_ok sys_boot (by decide)
  ⟨by decide, h.2.1, h.2.2.1⟩

/-! ## The pending flag along event sequences -/

/-- C5, as claimed, fails: after a successful attach, one edge interrupt followed
by a read at position 0 whose buffer faults (the read returns `-EFAULT`)
leaves `event_pending` clear although an edge has occurred and no read has
returned 1 since. -/
theorem C5_counterexample :
    (gpio_event_probe env_ok sys_boot).1 = 0 ∧
    (gpio_event_read (gpio_event_irq_handler (gpio_event_probe env_ok sys_boot).2).2
      [] 1 0).ret = -EFAULT ∧
    (run (gpio_event_probe env_ok sys_boot).2 [.irq, .read [] 1 0]).gdev.event_pending = 0 ∧
    edge_since read_returned_one (gpio_event_probe env_ok sys_boot).2 false
      [.irq, .read [] 1 0] = true ∧
    ¬ ((run (gpio_event_probe env_ok sys_boot).2 [.irq, .read [] 1 0]).gdev.event_pending ≠ 0 ↔
        edge_since read_returned_one (gpio_event_probe env_ok sys_boot).2 false
          [.irq, .read [] 1 0] = true) := by
  refine ⟨by decide, by decide, by decide, by decide, by decide⟩

/-- C5 (amended): in every state reached from a successful `gpio_event_probe` by
any sequence of edge interrupts, writes, polls and reads, `event_pending` is
non-zero if and only if at least one edge interrupt has occurred since the last
read that got past the position check, whether it returned 1 or failed with
`-EFAULT` (or since attach, if there has been no such read). -/
theorem C5_pending_invariant (env : ProbeEnv) (s0 : Sys) (ops : List Op)
    (hok : (gpio_event_probe env s0).1 = 0) :
    (run (gpio_event_probe env s0).2 ops).gdev.event_pending ≠ 0 ↔
      edge_since read_reached_drain (gpio_event_probe env s0).2 false ops = true := by
  apply run_pending_iff
  rw [probe_success_state env s0 hok]
  simp

/-- Instance of the amended C5: two interrupts, a poll, a read past the start and a write. -/
theorem C5_pending_invariant_witness :
    (gpio_event_probe env_ok sys_boot).1 = 0 ∧
    ((run (gpio_event_probe env_ok sys_boot).2
        [.irq, .irq, .poll, .read [0] 1 1, .write [CH_1] 1]).gdev.event_pending ≠ 0 ↔
      edge_since read_reached_drain (gpio_event_probe env_ok sys_boot).2 false
        [.irq, .irq, .poll, .read [0] 1 1, .write [CH_1] 1] = true) :=
  ⟨by decide,
   C5_pending_invariant env_ok sys_boot
     [.irq, .irq, .poll, .read [0] 1 1, .write [CH_1] 1] (by decide)⟩

end GpioEvent
